import Mathlib

/-!
Verification of the activation-gated lifecycle entities and the
intra-process subscription buffer of this rclcpp fork.

The `Rclcpp` namespace embeds, as pure Lean functions over explicit
state, the code of:
* `rclcpp_lifecycle/lifecycle_service.hpp` (`LifecycleService`:
  `add_to_wait_set`, `on_activate`, `on_deactivate`, `is_activated`,
  `log_service_not_enabled`, and the fields `enabled_` / `should_log_`);
* `rclcpp/experimental/subscription_intra_process_buffer.hpp`
  (`SubscriptionIntraProcessBuffer`: `is_ready`,
  `provide_intra_process_message` for the shared and unique overloads,
  `use_take_shared_method`, `trigger_guard_condition`).

The underlying `IntraProcessBuffer` implementation
(`rclcpp/experimental/buffers/intra_process_buffer.hpp` and
`create_intra_process_buffer`) is not part of the provided sources; it is
modelled from the spec where a claim needs it, as marked on each such
definition.
-/

namespace Rclcpp

/-- State of a `LifecycleService`: the two boolean fields `enabled_` and
`should_log_` of `lifecycle_service.hpp`.  The transport-level base
object (`rclcpp::Service`) is external and carries no state relevant to
the claims. -/
structure ServiceState where
  enabled : Bool
  should_log : Bool
deriving DecidableEq

/-- Initial state: every constructor of `LifecycleService` initialises
`enabled_(false), should_log_(true)`. -/
def initService : ServiceState := { enabled := false, should_log := true }

/-- Embedding of `LifecycleService::on_activate`: `enabled_ = true;`. -/
def on_activate (s : ServiceState) : ServiceState :=
  { s with enabled := true }

/-- Embedding of `LifecycleService::on_deactivate`:
`enabled_ = false; should_log_ = true;`. -/
def on_deactivate (s : ServiceState) : ServiceState :=
  { s with enabled := false, should_log := true }

/-- Embedding of `LifecycleService::is_activated`: `return enabled_;`. -/
def is_activated (s : ServiceState) : Bool := s.enabled

/-- Embedding of `LifecycleService::log_service_not_enabled`.  Returns the
updated state together with `true` when the `RCLCPP_WARN` diagnostic was
emitted: the source returns early when `should_log_` is false, otherwise
logs once and clears `should_log_`. -/
def log_service_not_enabled (s : ServiceState) : ServiceState × Bool :=
  if !s.should_log then (s, false)
  else ({ s with should_log := false }, true)

/-- Observable outcome of one `LifecycleService::add_to_wait_set` call:
the boolean return value, the updated service state, whether the call was
forwarded to `rclcpp::Service::add_to_wait_set`, and whether a diagnostic
warning was emitted during the call. -/
structure AddToWaitSetOutcome where
  result : Bool
  state : ServiceState
  forwarded : Bool
  warned : Bool
deriving DecidableEq

/-- Embedding of `LifecycleService::add_to_wait_set`.  The result of the
transport-level registration `rclcpp::Service::add_to_wait_set(wait_set)`
is external input, passed as `transportResult`; the source forwards to it
only when `enabled_` holds, and otherwise logs (rate-limited) and returns
`true`. -/
def add_to_wait_set (s : ServiceState) (transportResult : Bool) :
    AddToWaitSetOutcome :=
  if !s.enabled then
    let lw := log_service_not_enabled s
    { result := true, state := lw.1, forwarded := false, warned := lw.2 }
  else
    { result := transportResult, state := s, forwarded := true, warned := false }

/-- Operations a client may invoke on a `LifecycleService`; `addWait`
carries the result the transport registration would return. -/
inductive ServiceOp where
  | activate : ServiceOp
  | deactivate : ServiceOp
  | addWait : Bool → ServiceOp
deriving DecidableEq

/-- Whether an operation is `on_deactivate`. -/
def isDeactivate : ServiceOp → Bool
  | .deactivate => true
  | _ => false

/-- Whether an operation is an `add_to_wait_set` call. -/
def isAddWait : ServiceOp → Bool
  | .addWait _ => true
  | _ => false

/-- One operation applied to a service state, returning the new state and
whether the step emitted a diagnostic warning. -/
def stepOp (s : ServiceState) : ServiceOp → ServiceState × Bool
  | .activate => (on_activate s, false)
  | .deactivate => (on_deactivate s, false)
  | .addWait tr =>
      let o := add_to_wait_set s tr
      (o.state, o.warned)

/-- Run a list of operations from a state. -/
def runOps (s : ServiceState) : List ServiceOp → ServiceState
  | [] => s
  | op :: rest => runOps (stepOp s op).1 rest

/-- Total number of diagnostic warnings emitted while running a list of
operations from a state. -/
def warnCount (s : ServiceState) : List ServiceOp → Nat
  | [] => 0
  | op :: rest =>
      (if (stepOp s op).2 then 1 else 0) + warnCount (stepOp s op).1 rest

/-- Net effect of one operation on the activation flag. -/
def gateEffect (op : ServiceOp) (b : Bool) : Bool :=
  match op with
  | .activate => true
  | .deactivate => false
  | .addWait _ => b

/-- Activation flag dictated by the last `activate`/`deactivate` in the
list, starting from `b`. -/
def lastGate (ops : List ServiceOp) (b : Bool) : Bool :=
  ops.foldl (fun acc op => gateEffect op acc) b

/-- Modelled from the spec: the capacity policy of an
`IntraProcessBuffer` (the buffer implementation behind
`create_intra_process_buffer` is not among the provided sources) —
`{unbounded, keep-last-N}`, where keep-last-N drops the oldest entry on
overflow. -/
inductive CapacityPolicy where
  | keepAll : CapacityPolicy
  | keepLast : Nat → CapacityPolicy
deriving DecidableEq

/-- Modelled from the spec: `OwnershipEnvelope<Message>`, the tagged
choice between a shared (`ConstMessageSharedPtr`) and an exclusively
owned (`MessageUniquePtr`) message. -/
inductive OwnershipEnvelope (M : Type) where
  | shared : M → OwnershipEnvelope M
  | owned : M → OwnershipEnvelope M
deriving DecidableEq

/-- Modelled from the spec: `preferred_take_mode`, the static per-buffer
decision fixed by the configuration chosen at construction. -/
inductive TakeMode where
  | takeShared : TakeMode
  | takeOwned : TakeMode
deriving DecidableEq

/-- Modelled from the spec: an `IntraProcessBuffer` — a capacity policy
and preferred take mode fixed at construction, plus the FIFO queue of
envelopes.  The concrete implementation
(`rclcpp/experimental/buffers/intra_process_buffer.hpp`) is not among
the provided sources. -/
structure IntraProcessBuffer (M : Type) where
  policy : CapacityPolicy
  takeMode : TakeMode
  queue : List (OwnershipEnvelope M)
deriving DecidableEq

/-- Modelled from the spec: append an envelope to the tail of the queue;
under keep-last-N at capacity, the head entry is evicted before
appending, so the producer never fails or blocks. -/
def bufferAdd {M : Type} (b : IntraProcessBuffer M)
    (e : OwnershipEnvelope M) : IntraProcessBuffer M :=
  match b.policy with
  | .keepAll => { b with queue := b.queue ++ [e] }
  | .keepLast n =>
      if n ≤ b.queue.length then { b with queue := b.queue.tail ++ [e] }
      else { b with queue := b.queue ++ [e] }

/-- Modelled from the spec: `add_shared` stores a Variant A (shared)
envelope. -/
def add_shared {M : Type} (b : IntraProcessBuffer M) (m : M) :
    IntraProcessBuffer M :=
  bufferAdd b (.shared m)

/-- Modelled from the spec: `add_unique` stores a Variant B (owned)
envelope. -/
def add_unique {M : Type} (b : IntraProcessBuffer M) (m : M) :
    IntraProcessBuffer M :=
  bufferAdd b (.owned m)

/-- Modelled from the spec: `has_data()` is true iff the queue is
non-empty. -/
def has_data {M : Type} (b : IntraProcessBuffer M) : Bool :=
  !b.queue.isEmpty

/-- Modelled from the spec: `use_take_shared_method()` returns
`preferred_take_mode == shared`. -/
def use_take_shared_method {M : Type} (b : IntraProcessBuffer M) : Bool :=
  b.takeMode == .takeShared

/-- Modelled from the spec: the failure taxonomy of `consume()` — an
EmptyBuffer condition when called with no data. -/
inductive BufferError where
  | emptyBuffer : BufferError
deriving DecidableEq

/-- Modelled from the spec: `consume()` removes and returns the head
entry (FIFO); it fails with EmptyBuffer, leaving the buffer unchanged,
when the queue is empty. -/
def consume {M : Type} (b : IntraProcessBuffer M) :
    Except BufferError (OwnershipEnvelope M) × IntraProcessBuffer M :=
  match b.queue with
  | [] => (.error .emptyBuffer, b)
  | e :: rest => (.ok e, { b with queue := rest })

/-- State of a `SubscriptionIntraProcessBuffer`
(`subscription_intra_process_buffer.hpp`): the owned `buffer_` plus the
observable effect on the guard condition `gc_` of the base class,
counted as the number of `gc_.trigger()` calls. -/
structure SubscriptionIntraProcessBuffer (M : Type) where
  buffer : IntraProcessBuffer M
  gcTriggerCount : Nat
deriving DecidableEq

/-- Embedding of
`SubscriptionIntraProcessBuffer::trigger_guard_condition`:
`gc_.trigger();`. -/
def trigger_guard_condition {M : Type}
    (s : SubscriptionIntraProcessBuffer M) :
    SubscriptionIntraProcessBuffer M :=
  { s with gcTriggerCount := s.gcTriggerCount + 1 }

/-- Embedding of the `ConstMessageSharedPtr` overload of
`SubscriptionIntraProcessBuffer::provide_intra_process_message`:
`buffer_->add_shared(std::move(message)); trigger_guard_condition();`. -/
def provide_intra_process_message_shared {M : Type}
    (s : SubscriptionIntraProcessBuffer M) (m : M) :
    SubscriptionIntraProcessBuffer M :=
  trigger_guard_condition { s with buffer := add_shared s.buffer m }

/-- Embedding of the `MessageUniquePtr` overload of
`SubscriptionIntraProcessBuffer::provide_intra_process_message`:
`buffer_->add_unique(std::move(message)); trigger_guard_condition();`. -/
def provide_intra_process_message_unique {M : Type}
    (s : SubscriptionIntraProcessBuffer M) (m : M) :
    SubscriptionIntraProcessBuffer M :=
  trigger_guard_condition { s with buffer := add_unique s.buffer m }

/-- Wait-set handle passed to `is_ready`: `none` models a null
`rcl_wait_set_t *`. -/
def WaitSetHandle : Type := Option Nat

/-- Embedding of `SubscriptionIntraProcessBuffer::is_ready`: the source
casts the `wait_set` argument to void and returns
`buffer_->has_data()`, without mutating anything. -/
def is_ready {M : Type} (s : SubscriptionIntraProcessBuffer M)
    (waitSet : WaitSetHandle) : Bool :=
  has_data s.buffer

/-- Embedding of
`SubscriptionIntraProcessBuffer::use_take_shared_method`:
`return buffer_->use_take_shared_method();`. -/
def sub_use_take_shared_method {M : Type}
    (s : SubscriptionIntraProcessBuffer M) : Bool :=
  use_take_shared_method s.buffer

/-- Owning entity wrapper used to state activation-independence: a
lifecycle gate (`activated`) alongside the subscription's intra-process
machinery.  The source's `provide_intra_process_message` never reads any
activation state, which the wrapper makes statable. -/
structure GatedSubscriptionEntity (M : Type) where
  activated : Bool
  sub : SubscriptionIntraProcessBuffer M
deriving DecidableEq

/-- Message provision on the owning entity, shared overload: delegates
to the subscription machinery, which ignores the gate. -/
def entity_provide_shared {M : Type} (ent : GatedSubscriptionEntity M)
    (m : M) : GatedSubscriptionEntity M :=
  { ent with sub := provide_intra_process_message_shared ent.sub m }

/-- Message provision on the owning entity, unique overload. -/
def entity_provide_unique {M : Type} (ent : GatedSubscriptionEntity M)
    (m : M) : GatedSubscriptionEntity M :=
  { ent with sub := provide_intra_process_message_unique ent.sub m }

/-- Operations a client may apply to the subscription's buffer state
over its lifetime. -/
inductive SubOp (M : Type) where
  | provideShared : M → SubOp M
  | provideUnique : M → SubOp M
  | consumeOne : SubOp M

/-- One operation applied to a subscription state. -/
def applySubOp {M : Type} (s : SubscriptionIntraProcessBuffer M) :
    SubOp M → SubscriptionIntraProcessBuffer M
  | .provideShared m => provide_intra_process_message_shared s m
  | .provideUnique m => provide_intra_process_message_unique s m
  | .consumeOne => { s with buffer := (consume s.buffer).2 }

/-- Run a list of operations on a subscription state. -/
def runSubOps {M : Type} (s : SubscriptionIntraProcessBuffer M) :
    List (SubOp M) → SubscriptionIntraProcessBuffer M
  | [] => s
  | op :: rest => runSubOps (applySubOp s op) rest

/-- Concrete keep-last-2 buffer used by the capacity-2 scenario. -/
def keepLast2Empty : IntraProcessBuffer Nat :=
  { policy := .keepLast 2, takeMode := .takeShared, queue := [] }

end Rclcpp

namespace Rclcpp

lemma stepOp_enabled (s : ServiceState) (op : ServiceOp) :
    ((stepOp s op).1).enabled = gateEffect op s.enabled := by
  obtain ⟨e, l⟩ := s
  cases op with
  | activate => rfl
  | deactivate => rfl
  | addWait tr => cases e <;> cases l <;> cases tr <;> rfl

lemma stepOp_warned_clears (s : ServiceState) (op : ServiceOp) :
    (stepOp s op).2 = true → ((stepOp s op).1).should_log = false := by
  obtain ⟨e, l⟩ := s
  cases op with
  | activate => cases l <;> simp [stepOp, on_activate]
  | deactivate => simp [stepOp]
  | addWait tr =>
      cases e <;> cases l <;> cases tr <;>
        simp [stepOp, add_to_wait_set, log_service_not_enabled]

lemma stepOp_no_warn (s : ServiceState) (op : ServiceOp)
    (hop : isDeactivate op = false) (hlog : s.should_log = false) :
    (stepOp s op).2 = false ∧ ((stepOp s op).1).should_log = false := by
  obtain ⟨e, l⟩ := s
  cases op with
  | activate =>
      cases l <;> simp_all [stepOp, on_activate]
  | deactivate => simp [isDeactivate] at hop
  | addWait tr =>
      cases e <;> cases l <;> cases tr <;>
        simp_all [stepOp, add_to_wait_set, log_service_not_enabled]

lemma warnCount_zero_of_cleared (ops : List ServiceOp) :
    ∀ s : ServiceState, s.should_log = false →
      ops.all (fun op => !isDeactivate op) = true → warnCount s ops = 0 := by
  induction ops with
  | nil => intro s _ _; rfl
  | cons op rest ih =>
      intro s hlog hall
      rw [List.all_cons, Bool.and_eq_true] at hall
      have hop : isDeactivate op = false := by
        cases hdec : isDeactivate op
        · rfl
        · rw [hdec] at hall; simp at hall
      obtain ⟨hw, hl⟩ := stepOp_no_warn s op hop hlog
      rw [warnCount, hw]
      simp [ih _ hl hall.2]

lemma warnCount_le_one_of_no_deactivate (ops : List ServiceOp) :
    ∀ s : ServiceState,
      ops.all (fun op => !isDeactivate op) = true → warnCount s ops ≤ 1 := by
  induction ops with
  | nil => intro s _; exact Nat.zero_le 1
  | cons op rest ih =>
      intro s hall
      rw [List.all_cons, Bool.and_eq_true] at hall
      rw [warnCount]
      cases hw : (stepOp s op).2 with
      | false =>
          simpa using ih (stepOp s op).1 hall.2
      | true =>
          have hl := stepOp_warned_clears s op hw
          have hz := warnCount_zero_of_cleared rest (stepOp s op).1 hl hall.2
          simp [hz]

lemma addWait_all_no_deactivate (ops : List ServiceOp)
    (h : ops.all isAddWait = true) :
    ops.all (fun op => !isDeactivate op) = true := by
  rw [List.all_eq_true] at h ⊢
  intro op hop
  have := h op hop
  cases op with
  | activate => rfl
  | deactivate => simp [isAddWait] at this
  | addWait tr => rfl

lemma warnCount_armed_addWait (ops : List ServiceOp)
    (h : ops.all isAddWait = true) :
    warnCount { enabled := false, should_log := true } ops =
      min 1 ops.length := by
  cases ops with
  | nil => rfl
  | cons op rest =>
      rw [List.all_cons, Bool.and_eq_true] at h
      obtain ⟨hop, hrest⟩ := h
      cases op with
      | activate => simp [isAddWait] at hop
      | deactivate => simp [isAddWait] at hop
      | addWait tr =>
          have hstep :
              stepOp { enabled := false, should_log := true } (.addWait tr) =
                ({ enabled := false, should_log := false }, true) := by
            cases tr <;> rfl
          rw [warnCount, hstep]
          have hz := warnCount_zero_of_cleared rest
            { enabled := false, should_log := false } rfl
            (addWait_all_no_deactivate rest hrest)
          simp [hz, List.length_cons]

lemma runOps_enabled (ops : List ServiceOp) :
    ∀ s : ServiceState, (runOps s ops).enabled = lastGate ops s.enabled := by
  induction ops with
  | nil => intro s; rfl
  | cons op rest ih =>
      intro s
      rw [runOps, ih ((stepOp s op).1), stepOp_enabled]
      rfl

lemma bufferAdd_getLast {M : Type} (b : IntraProcessBuffer M)
    (e : OwnershipEnvelope M) :
    ((bufferAdd b e).queue).getLast? = some e := by
  obtain ⟨p, t, q⟩ := b
  cases p with
  | keepAll => simp [bufferAdd]
  | keepLast n =>
      by_cases h : n ≤ q.length <;> simp [bufferAdd, h]

lemma bufferAdd_takeMode {M : Type} (b : IntraProcessBuffer M)
    (e : OwnershipEnvelope M) :
    (bufferAdd b e).takeMode = b.takeMode := by
  obtain ⟨p, t, q⟩ := b
  cases p with
  | keepAll => rfl
  | keepLast n =>
      by_cases h : n ≤ q.length <;> simp [bufferAdd, h]

lemma consume_takeMode {M : Type} (b : IntraProcessBuffer M) :
    ((consume b).2).takeMode = b.takeMode := by
  obtain ⟨p, t, q⟩ := b
  cases q <;> rfl

lemma applySubOp_takeMode {M : Type} (s : SubscriptionIntraProcessBuffer M)
    (op : SubOp M) :
    ((applySubOp s op).buffer).takeMode = s.buffer.takeMode := by
  cases op with
  | provideShared m =>
      exact bufferAdd_takeMode s.buffer (.shared m)
  | provideUnique m =>
      exact bufferAdd_takeMode s.buffer (.owned m)
  | consumeOne =>
      exact consume_takeMode s.buffer

lemma runSubOps_takeMode {M : Type} (ops : List (SubOp M)) :
    ∀ s : SubscriptionIntraProcessBuffer M,
      ((runSubOps s ops).buffer).takeMode = s.buffer.takeMode := by
  induction ops with
  | nil => intro s; rfl
  | cons op rest ih =>
      intro s
      rw [runSubOps, ih (applySubOp s op), applySubOp_takeMode]

/-- Claim C1: `add_to_wait_set` behaves as the gate dictates.  When the
gate is inactive the call returns `true`, does not forward to the
transport registration, emits a warning exactly when the warn-once
policy allows (`should_log_`), clears the warn flag, and leaves the gate
untouched; when the gate is active the call forwards, returns exactly
the transport's result, and leaves the state unchanged. -/
theorem lifecycle_service_add_to_wait_set_gate (s : ServiceState)
    (tr : Bool) :
    (is_activated s = false →
      (add_to_wait_set s tr).result = true ∧
      (add_to_wait_set s tr).forwarded = false ∧
      (add_to_wait_set s tr).warned = s.should_log ∧
      ((add_to_wait_set s tr).state).enabled = s.enabled ∧
      ((add_to_wait_set s tr).state).should_log = false) ∧
    (is_activated s = true →
      (add_to_wait_set s tr).result = tr ∧
      (add_to_wait_set s tr).forwarded = true ∧
      (add_to_wait_set s tr).warned = false ∧
      (add_to_wait_set s tr).state = s) := by
  obtain ⟨e, l⟩ := s
  cases e <;> cases l <;> cases tr <;> decide

/-- Witness for C1: a concrete inactive call (gate off: handled, not
forwarded) and a concrete active call (gate on: forwarded). -/
theorem lifecycle_service_add_to_wait_set_gate_witness :
    ((add_to_wait_set initService true).result = true ∧
     (add_to_wait_set initService true).forwarded = false) ∧
    ((add_to_wait_set { enabled := true, should_log := true } false).result
        = false ∧
     (add_to_wait_set { enabled := true, should_log := true } false).forwarded
        = true) := by
  constructor
  · have h := (lifecycle_service_add_to_wait_set_gate initService true).1 rfl
    exact ⟨h.1, h.2.1⟩
  · have h := (lifecycle_service_add_to_wait_set_gate
      { enabled := true, should_log := true } false).2 rfl
    exact ⟨h.1, h.2.1⟩

/-- Claim C2, counterexample: the gate becomes inactive at the
`deactivate` after the initial `activate` and never becomes active
again — a single inactive period — yet the trace emits two warnings,
because the redundant second `on_deactivate` re-arms `should_log_`.
This refutes the claim that every `add_to_wait_set` call after the first
one in the same inactive period emits no warning. -/
theorem lifecycle_service_warn_once_counterexample :
    warnCount initService
      [.activate, .deactivate, .addWait true, .deactivate, .addWait true]
      = 2 ∧
    is_activated (runOps initService [.activate, .deactivate]) = false ∧
    is_activated (runOps initService [.activate, .deactivate, .addWait true])
      = false ∧
    is_activated (runOps initService
      [.activate, .deactivate, .addWait true, .deactivate]) = false ∧
    is_activated (runOps initService
      [.activate, .deactivate, .addWait true, .deactivate, .addWait true])
      = false := by
  decide

/-- Claim C2 as amended: warnings are re-armed by every `on_deactivate`
call, not only by transitions into inactivity.  Any stretch of calls
containing no `on_deactivate` emits at most one warning, and an
`on_deactivate` followed only by `add_to_wait_set` calls emits exactly
one warning when at least one such call occurs (zero otherwise). -/
theorem lifecycle_service_warn_once_amended (s : ServiceState)
    (ops : List ServiceOp) :
    (ops.all (fun op => !isDeactivate op) = true → warnCount s ops ≤ 1) ∧
    (ops.all isAddWait = true →
      warnCount s (.deactivate :: ops) = min 1 ops.length) := by
  constructor
  · exact warnCount_le_one_of_no_deactivate ops s
  · intro h
    rw [warnCount]
    have hstep : stepOp s .deactivate =
        ({ enabled := false, should_log := true }, false) := by
      obtain ⟨e, l⟩ := s; rfl
    rw [hstep]
    simpa using warnCount_armed_addWait ops h

/-- Witness for the amended C2: a concrete deactivate-free trace with at
most one warning, and a concrete deactivate followed by two wait calls
emitting exactly one warning. -/
theorem lifecycle_service_warn_once_amended_witness :
    warnCount initService [.addWait true, .activate, .addWait false] ≤ 1 ∧
    warnCount { enabled := true, should_log := false }
      (.deactivate :: [.addWait true, .addWait true]) = 1 := by
  constructor
  · exact (lifecycle_service_warn_once_amended initService
      [.addWait true, .activate, .addWait false]).1 (by decide)
  · have h := (lifecycle_service_warn_once_amended
      { enabled := true, should_log := false }
      [.addWait true, .addWait true]).2 (by decide)
    simpa using h

/-- Claim C3: over every sequence of operations (including
`add_to_wait_set` calls), `is_activated` equals what the last
`on_activate`/`on_deactivate` set — `true` after activate, `false` after
deactivate, `false` initially — so repeated identical calls are
idempotent and no other operation changes the activation state. -/
theorem lifecycle_service_activation_last_write (ops : List ServiceOp) :
    is_activated (runOps initService ops) = lastGate ops false := by
  simpa [is_activated, initService] using runOps_enabled ops initService

/-- Claim C4: both overloads of `provide_intra_process_message` append
the message envelope to the buffer (it becomes the tail of the queue as
dictated by the buffer discipline) and trigger the guard condition
exactly once per insertion, and the outcome is independent of the owning
entity's activation state, which is left unchanged. -/
theorem provide_intra_process_message_buffers_and_triggers {M : Type}
    (ent : GatedSubscriptionEntity M) (m : M) :
    ((entity_provide_shared ent m).sub.buffer = add_shared ent.sub.buffer m ∧
     (entity_provide_shared ent m).sub.gcTriggerCount
        = ent.sub.gcTriggerCount + 1 ∧
     ((entity_provide_shared ent m).sub.buffer.queue).getLast?
        = some (.shared m) ∧
     (entity_provide_shared ent m).activated = ent.activated) ∧
    ((entity_provide_unique ent m).sub.buffer = add_unique ent.sub.buffer m ∧
     (entity_provide_unique ent m).sub.gcTriggerCount
        = ent.sub.gcTriggerCount + 1 ∧
     ((entity_provide_unique ent m).sub.buffer.queue).getLast?
        = some (.owned m) ∧
     (entity_provide_unique ent m).activated = ent.activated) ∧
    (∀ g : Bool,
      (entity_provide_shared { ent with activated := g } m).sub
        = (entity_provide_shared ent m).sub ∧
      (entity_provide_unique { ent with activated := g } m).sub
        = (entity_provide_unique ent m).sub) := by
  refine ⟨⟨rfl, rfl, ?_, rfl⟩, ⟨rfl, rfl, ?_, rfl⟩, fun g => ⟨rfl, rfl⟩⟩
  · exact bufferAdd_getLast ent.sub.buffer (.shared m)
  · exact bufferAdd_getLast ent.sub.buffer (.owned m)

/-- Claim C5: `is_ready` returns exactly `has_data()` of the underlying
buffer — true iff the queue is non-empty — and, being embedded as a pure
function just as the source only reads, modifies nothing. -/
theorem is_ready_iff_has_data {M : Type}
    (s : SubscriptionIntraProcessBuffer M) (w : WaitSetHandle) :
    is_ready s w = has_data s.buffer ∧
    (is_ready s w = true ↔ s.buffer.queue ≠ []) := by
  refine ⟨rfl, ?_⟩
  simp [is_ready, has_data]

/-- Claim C6: a keep-last-2 buffer receiving messages 0, 1, 2 in order
holds [0] then [0, 1] then [1, 2] — the oldest entry is evicted when at
capacity — with `has_data` true after every insertion; insertion is a
total function, so it never fails. -/
theorem keep_last_two_eviction :
    (add_shared keepLast2Empty 0).queue = [.shared 0] ∧
    has_data (add_shared keepLast2Empty 0) = true ∧
    (add_shared (add_shared keepLast2Empty 0) 1).queue
      = [.shared 0, .shared 1] ∧
    has_data (add_shared (add_shared keepLast2Empty 0) 1) = true ∧
    (add_shared (add_shared (add_shared keepLast2Empty 0) 1) 2).queue
      = [.shared 1, .shared 2] ∧
    has_data (add_shared (add_shared (add_shared keepLast2Empty 0) 1) 2)
      = true := by
  decide

/-- Claim C7: `use_take_shared_method` is fixed by the construction-time
take mode and is unchanged by any sequence of shared insertions, owned
insertions and consumptions. -/
theorem use_take_shared_method_constant {M : Type}
    (s : SubscriptionIntraProcessBuffer M) (ops : List (SubOp M)) :
    sub_use_take_shared_method (runSubOps s ops)
      = sub_use_take_shared_method s := by
  unfold sub_use_take_shared_method use_take_shared_method
  rw [runSubOps_takeMode ops s]

/-- Claim C8: `consume` on an empty queue fails with the EmptyBuffer
condition and leaves the buffer unchanged, returning no message at all;
on a non-empty queue it removes and returns the head entry in FIFO
order. -/
theorem consume_fifo_and_empty_failure {M : Type}
    (b : IntraProcessBuffer M) :
    (b.queue = [] → consume b = (.error .emptyBuffer, b)) ∧
    (∀ (e : OwnershipEnvelope M) (rest : List (OwnershipEnvelope M)),
      b.queue = e :: rest →
        consume b = (.ok e, { b with queue := rest })) := by
  obtain ⟨p, t, q⟩ := b
  constructor
  · intro h
    cases q with
    | nil => rfl
    | cons e rest => simp at h
  · intro e rest h
    cases q with
    | nil => simp at h
    | cons e0 rest0 =>
        have he : e0 = e ∧ rest0 = rest := by
          have hh : e0 :: rest0 = e :: rest := h
          exact ⟨List.head_eq_of_cons_eq hh, List.tail_eq_of_cons_eq hh⟩
        rw [he.1, he.2] at *
        rfl

/-- Witness for C8: consuming a concrete empty buffer fails with
EmptyBuffer and leaves it unchanged; consuming a concrete two-element
buffer returns the head and keeps the tail. -/
theorem consume_fifo_and_empty_failure_witness :
    consume ({ policy := .keepAll, takeMode := .takeShared, queue := [] } :
        IntraProcessBuffer Nat)
      = (.error .emptyBuffer,
         { policy := .keepAll, takeMode := .takeShared, queue := [] }) ∧
    consume ({ policy := .keepAll, takeMode := .takeShared,
               queue := [.shared 5, .owned 7] } : IntraProcessBuffer Nat)
      = (.ok (.shared 5),
         { policy := .keepAll, takeMode := .takeShared,
           queue := [.owned 7] }) := by
  constructor
  · exact (consume_fifo_and_empty_failure _).1 rfl
  · exact (consume_fifo_and_empty_failure _).2 (.shared 5) [.owned 7] rfl

/-- Claim C10: the readiness result of a subscription buffer depends
only on the buffer contents, never on the wait-set handle passed in
(null included): any two handles give the same answer. -/
theorem is_ready_wait_set_independent {M : Type}
    (s : SubscriptionIntraProcessBuffer M) (w1 w2 : WaitSetHandle) :
    is_ready s w1 = is_ready s w2 := rfl

end Rclcpp
